import Mathlib

/-!
Shallow embedding of `src/controller/promt.controller.js` from the
neurosearch backend: the Gemini completion client `callGeminiAPI`
(a retry loop with exponential backoff) and the request handler
`sendPromt` (validation, two persistence steps around a completion
call, and error mapping).

The embedding models each run of `callGeminiAPI` as a function of the
sequence of attempt outcomes (what each `fetch` would observe) and of
the sequence of `Math.random()` draws, returning the observable result,
the number of attempts made, and the list of backoff waits performed.
`sendPromt` is modelled as a function of the request content (a JS
value, to capture dynamic typing), the outcome of each `Promt.create`
call, the completion result, and the initial store contents.
-/

namespace NeuroSearch

/-- The controller configuration constant `MAX_RETRIES = 5`. -/
def MAX_RETRIES : Nat := 5

/-- An HTTP response as observed by one `fetch` attempt: the status code,
the body text, and the value of `candidates?.[0]?.content?.parts?.[0]?.text`
(`none` when the path is absent from the parsed JSON). -/
structure HttpResponse where
  status : Nat
  body : String
  aiText : Option String
deriving Repr, DecidableEq

/-- The outcome of one `fetch` attempt: either the transport throws
(network failure) or an HTTP response arrives. -/
inductive AttemptOutcome
  | fetchError (msg : String)
  | response (r : HttpResponse)
deriving Repr, DecidableEq

/-- The retry-branch test of the loop:
`response.status === 429 || (response.status >= 500 && response.status < 600)`. -/
def isTransientStatus (s : Nat) : Bool :=
  decide (s = 429 ∨ (500 ≤ s ∧ s < 600))

/-- The value of `response.ok`: status in the inclusive range 200..299. -/
def respOk (s : Nat) : Bool :=
  decide (200 ≤ s ∧ s ≤ 299)

/-- An attempt outcome the retry branch treats as retryable: an HTTP
response whose status is 429 or 5xx.  Transport failures are not in this
class: the code reaches its retry-branch test only when `fetch` returned. -/
def AttemptOutcome.isTransient : AttemptOutcome → Bool
  | .fetchError _ => false
  | .response r => isTransientStatus r.status

/-- The errors `callGeminiAPI` can reject with. -/
inductive GeminiError
  | retriesExhausted (status : Nat) (body : String)
  | clientError (status : Nat) (body : String)
  | contentMissing
  | network (msg : String)
  | fallback
deriving Repr, DecidableEq

/-- The `error.message` of each error thrown in `callGeminiAPI`; a network
error carries the transport's own message. -/
def GeminiError.message : GeminiError → String
  | .retriesExhausted s b =>
      "Gemini API call failed after " ++ toString MAX_RETRIES ++
        " attempts. Status: " ++ toString s ++ ". Body: " ++ b
  | .clientError s b =>
      "Gemini API Client Error: " ++ toString s ++ " - " ++ b
  | .contentMissing =>
      "Gemini API response successful but generated content text is missing or was blocked."
  | .network m => m
  | .fallback => "Failed to get response from Gemini API."

instance : DecidableEq (Except GeminiError String) := fun
  | .ok a, .ok b =>
    if h : a = b then isTrue (by rw [h]) else isFalse (by simp [h])
  | .ok _, .error _ => isFalse (by simp)
  | .error _, .ok _ => isFalse (by simp)
  | .error a, .error b =>
    if h : a = b then isTrue (by rw [h]) else isFalse (by simp [h])

/-- Observable result of a run of `callGeminiAPI`: the value returned or
error thrown, the number of `fetch` attempts made, and the backoff delays
awaited, in order, in milliseconds. -/
structure RunResult where
  result : Except GeminiError String
  attempts : Nat
  waits : List ℚ
deriving Repr, DecidableEq

/-- One backoff delay: `Math.pow(2, i) * 1000 + Math.random() * 500`,
where `j i` is the value drawn from `Math.random()` at iteration `i`. -/
def backoffDelay (j : Nat → ℚ) (i : Nat) : ℚ :=
  2 ^ i * 1000 + j i * 500

/-- The body of the `for` loop of `callGeminiAPI`, iterated with explicit
fuel (`fuel = MAX_RETRIES - i` at every call).  Faithful to the source,
including the `try`/`catch`: every error thrown inside the `try` —
transport failures, the client-error throw, the content-missing throw, and
the retries-exhausted throw — lands in the `catch`, which re-throws only
when `i === MAX_RETRIES - 1` and otherwise lets the loop continue without
waiting.  Only the 429/5xx branch performs a backoff wait. -/
def go (o : Nat → AttemptOutcome) (j : Nat → ℚ) : Nat → Nat → RunResult
  | 0, i => ⟨.error .fallback, i, []⟩
  | fuel + 1, i =>
    match o i with
    | .fetchError msg =>
      if i = MAX_RETRIES - 1 then ⟨.error (.network msg), i + 1, []⟩
      else go o j fuel (i + 1)
    | .response r =>
      if isTransientStatus r.status then
        if i < MAX_RETRIES - 1 then
          ⟨(go o j fuel (i + 1)).result, (go o j fuel (i + 1)).attempts,
            backoffDelay j i :: (go o j fuel (i + 1)).waits⟩
        else ⟨.error (.retriesExhausted r.status r.body), i + 1, []⟩
      else if !respOk r.status then
        if i = MAX_RETRIES - 1 then ⟨.error (.clientError r.status r.body), i + 1, []⟩
        else go o j fuel (i + 1)
      else
        match r.aiText with
        | none =>
          if i = MAX_RETRIES - 1 then ⟨.error .contentMissing, i + 1, []⟩
          else go o j fuel (i + 1)
        | some t =>
          if t = "" then
            if i = MAX_RETRIES - 1 then ⟨.error .contentMissing, i + 1, []⟩
            else go o j fuel (i + 1)
          else ⟨.ok t, i + 1, []⟩

/-- A run of `callGeminiAPI`, given the outcome each attempt would observe
and the `Math.random()` draw of each iteration. -/
def callGeminiAPI (o : Nat → AttemptOutcome) (j : Nat → ℚ) : RunResult :=
  go o j MAX_RETRIES 0

/-- Zero jitter: every `Math.random()` draw is 0. -/
def zeroJitter : Nat → ℚ := fun _ => 0

/-- Outcome sequence: 400 Bad Request on the first attempt, then a
successful response with generated text. -/
def o400First : Nat → AttemptOutcome := fun i =>
  if i = 0 then .response ⟨400, "bad request", none⟩
  else .response ⟨200, "okbody", some "hello"⟩

/-- Outcome sequence: a 200 response lacking the generated-text field on
the first attempt, then a successful response with generated text. -/
def oMissingFirst : Nat → AttemptOutcome := fun i =>
  if i = 0 then .response ⟨200, "empty", none⟩
  else .response ⟨200, "okbody", some "later text"⟩

/-- Outcome sequence: a transport failure on the first attempt, then a
successful response with generated text. -/
def oNetFirst : Nat → AttemptOutcome := fun i =>
  if i = 0 then .fetchError "fetch failed: ECONNRESET"
  else .response ⟨200, "okbody", some "after net"⟩

/-- Outcome sequence: HTTP 429 on every attempt. -/
def oAll429 : Nat → AttemptOutcome := fun _ =>
  .response ⟨429, "rate limited", none⟩

/-- Outcome sequence: HTTP 429 on the first four attempts, then a
transport failure on the fifth. -/
def o429ThenNet : Nat → AttemptOutcome := fun i =>
  if i ≤ 3 then .response ⟨429, "rate limited", none⟩
  else .fetchError "fetch failed: ECONNRESET"

/-- A JavaScript value, as far as `req.body.content` is concerned:
`undefined` (absent field), a string, a number, or a boolean. -/
inductive JSValue
  | undef
  | str (s : String)
  | num (n : Int)
  | jsBool (b : Bool)
deriving Repr, DecidableEq

/-- JavaScript truthiness of a `JSValue` (`!content` negates this). -/
def JSValue.truthy : JSValue → Bool
  | .undef => false
  | .str s => !(s == "")
  | .num n => !(n == 0)
  | .jsBool b => b

/-- Whether the value is a string, i.e. whether `.trim()` exists on it. -/
def JSValue.isString : JSValue → Bool
  | .str _ => true
  | _ => false

/-- The behaviour of `content.trim()`: strip leading and trailing
whitespace. -/
def jsTrim (s : String) : String :=
  ⟨((s.toList.dropWhile Char.isWhitespace).reverse.dropWhile Char.isWhitespace).reverse⟩

/-- Whether the pattern (second list) occurs at the head of the first list. -/
def startsWithChars : List Char → List Char → Bool
  | _, [] => true
  | [], _ :: _ => false
  | c :: cs, p :: ps => c == p && startsWithChars cs ps

/-- Whether the pattern (second list) occurs anywhere in the first list. -/
def containsChars : List Char → List Char → Bool
  | [], pat => pat.isEmpty
  | c :: cs, pat => startsWithChars (c :: cs) pat || containsChars cs pat

/-- The test `error.message.includes("Gemini API")` from the handler's
catch block. -/
def includesGeminiAPI (m : String) : Bool :=
  containsChars m.toList "Gemini API".toList

/-- A persisted chat turn, as created by `Promt.create`. -/
structure Message where
  userId : String
  role : String
  content : String
deriving Repr, DecidableEq

/-- The JSON body shapes the handler responds with: `{ errors }` on
validation failure, `{ reply }` on success, `{ error }` on server error. -/
inductive ResBody
  | errors (msg : String)
  | reply (text : String)
  | error (msg : String)
deriving Repr, DecidableEq

/-- What a run of `sendPromt` does towards the caller: an HTTP response
with a status and body, or an uncaught TypeError thrown before any
response is sent (from calling `.trim()` on a non-string). -/
inductive SendResult
  | response (status : Nat) (body : ResBody)
  | uncaughtTypeError
deriving Repr, DecidableEq

/-- Observable outcome of a run of `sendPromt`: the caller-facing result,
the final contents of the message store, and whether the completion
client was invoked. -/
structure SendOutcome where
  result : SendResult
  store : List Message
  geminiCalled : Bool
deriving Repr, DecidableEq

/-- The generic server-error message of the handler's catch block. -/
def genericErrorMessage : String := "Something went wrong with the AI response."

/-- The handler's catch block: status 500 with the underlying message when
it contains "Gemini API", and the generic message otherwise. -/
def catchResponse (m : String) : SendResult :=
  .response 500 (.error (if includesGeminiAPI m then m else genericErrorMessage))

/-- The `sendPromt` handler.  `content` is `req.body.content`; `userId` is
`req.userId`; `createUser` and `createAssistant` give the outcome of the
two `Promt.create` calls (`none` means success, `some m` means the call
throws an error with message `m`); `gemini` is the settled result of
`callGeminiAPI`; `store` is the message store before the request.
Mirrors the source's evaluation order: `!content` is tested first, then
`content.trim()` — which throws a TypeError when `content` is a truthy
non-string — and the `try` block persists the user turn, awaits the
completion, persists the assistant turn, and responds 200, with every
thrown error mapped by the catch block. -/
def sendPromt (content : JSValue) (userId : String)
    (createUser createAssistant : Option String)
    (gemini : Except GeminiError String)
    (store : List Message) : SendOutcome :=
  if content.truthy then
    match content with
    | .str s =>
      if jsTrim s = "" then
        ⟨.response 400 (.errors "Promt content is required"), store, false⟩
      else
        match createUser with
        | some m => ⟨catchResponse m, store, false⟩
        | none =>
          match gemini with
          | .error e => ⟨catchResponse e.message, store ++ [⟨userId, "user", s⟩], true⟩
          | .ok aiContent =>
            match createAssistant with
            | some m => ⟨catchResponse m, store ++ [⟨userId, "user", s⟩], true⟩
            | none =>
              ⟨.response 200 (.reply aiContent),
                store ++ [⟨userId, "user", s⟩] ++ [⟨userId, "assistant", aiContent⟩], true⟩
    | _ => ⟨.uncaughtTypeError, store, false⟩
  else ⟨.response 400 (.errors "Promt content is required"), store, false⟩

lemma range'_succ_one (s n : Nat) :
    List.range' s (n + 1) = s :: List.range' (s + 1) n := by
  simpa using List.range'_succ s n 1

lemma go_attempts_ge (o : Nat → AttemptOutcome) (j : Nat → ℚ) :
    ∀ fuel i, 1 ≤ fuel → i + 1 ≤ (go o j fuel i).attempts := by
  intro fuel
  induction fuel with
  | zero => intro i h; omega
  | succ fuel ih =>
    intro i _
    have hrec : i + 1 ≤ (go o j fuel (i + 1)).attempts := by
      rcases Nat.eq_zero_or_pos fuel with hf | hf
      · subst hf; simp [go]
      · exact le_trans (by omega) (ih (i + 1) hf)
    rcases ho : o i with msg | r <;> simp only [go, ho]
    · split
      · simp
      · exact hrec
    · split
      · split
        · exact hrec
        · simp
      · split
        · split
          · simp
          · exact hrec
        · rcases r.aiText with _ | t
          · simp only []
            split
            · simp
            · exact hrec
          · simp only []
            split
            · split
              · simp
              · exact hrec
            · simp

lemma go_waits (o : Nat → AttemptOutcome) (j : Nat → ℚ) :
    ∀ fuel i, i + fuel = MAX_RETRIES →
      (go o j fuel i).waits =
        ((List.range' i ((go o j fuel i).attempts - 1 - i)).filter
            (fun k => (o k).isTransient)).map (backoffDelay j) := by
  intro fuel
  induction fuel with
  | zero =>
    intro i h
    simp [go]
  | succ fuel ih =>
    intro i h
    by_cases hlast : i = MAX_RETRIES - 1
    · have hf : fuel = 0 := by simp [MAX_RETRIES] at h hlast; omega
      have hi4 : i = 4 := by simpa [MAX_RETRIES] using hlast
      subst hf; subst hi4
      rcases ho : o 4 with msg | r
      · simp [go, ho, MAX_RETRIES]
      · by_cases ht : isTransientStatus r.status
        · simp [go, ho, MAX_RETRIES, ht]
        · by_cases hok : respOk r.status
          · rcases hta : r.aiText with _ | t
            · simp [go, ho, MAX_RETRIES, ht, hok, hta]
            · by_cases htt : t = ""
              · simp [go, ho, MAX_RETRIES, ht, hok, hta, htt]
              · simp [go, ho, MAX_RETRIES, ht, hok, hta, htt]
          · simp [go, ho, MAX_RETRIES, ht, hok]
    · have hi : i < MAX_RETRIES - 1 := by
        simp [MAX_RETRIES] at h hlast ⊢; omega
      have hsub : i + 1 + fuel = MAX_RETRIES := by
        simp [MAX_RETRIES] at h ⊢; omega
      have hfe : 1 ≤ fuel := by
        simp [MAX_RETRIES] at h hlast hi; omega
      have hge : i + 2 ≤ (go o j fuel (i + 1)).attempts := by
        have := go_attempts_ge o j fuel (i + 1) hfe
        omega
      have hub := ih (i + 1) hsub
      have hsplit :
          (go o j fuel (i + 1)).attempts - 1 - i =
            ((go o j fuel (i + 1)).attempts - 1 - (i + 1)) + 1 := by omega
      rcases ho : o i with msg | r
      · have hred : go o j (fuel + 1) i = go o j fuel (i + 1) := by
          simp [go, ho, hlast]
        rw [hred, hsplit, range'_succ_one,
          List.filter_cons_of_neg (by simp [ho, AttemptOutcome.isTransient])]
        exact hub
      · by_cases ht : isTransientStatus r.status
        · have hred : go o j (fuel + 1) i =
              ⟨(go o j fuel (i + 1)).result, (go o j fuel (i + 1)).attempts,
                backoffDelay j i :: (go o j fuel (i + 1)).waits⟩ := by
            simp [go, ho, ht, hi]
          rw [hred, hsplit, range'_succ_one,
            List.filter_cons_of_pos (by simp [ho, AttemptOutcome.isTransient, ht]),
            List.map_cons]
          exact congrArg _ hub
        · by_cases hok : respOk r.status
          · rcases hta : r.aiText with _ | t
            · have hred : go o j (fuel + 1) i = go o j fuel (i + 1) := by
                simp [go, ho, ht, hok, hta, hlast]
              rw [hred, hsplit, range'_succ_one,
                List.filter_cons_of_neg (by simp [ho, AttemptOutcome.isTransient, ht])]
              exact hub
            · by_cases htt : t = ""
              · have hred : go o j (fuel + 1) i = go o j fuel (i + 1) := by
                  simp [go, ho, ht, hok, hta, htt, hlast]
                rw [hred, hsplit, range'_succ_one,
                  List.filter_cons_of_neg (by simp [ho, AttemptOutcome.isTransient, ht])]
                exact hub
              · have hred : go o j (fuel + 1) i = ⟨.ok t, i + 1, []⟩ := by
                  simp [go, ho, ht, hok, hta, htt]
                rw [hred]
                simp
          · have hred : go o j (fuel + 1) i = go o j fuel (i + 1) := by
              simp [go, ho, ht, hok, hlast]
            rw [hred, hsplit, range'_succ_one,
              List.filter_cons_of_neg (by simp [ho, AttemptOutcome.isTransient, ht])]
            exact hub

lemma go_result_ne_fallback (o : Nat → AttemptOutcome) (j : Nat → ℚ) :
    ∀ fuel i, i + fuel = MAX_RETRIES → 1 ≤ fuel →
      (go o j fuel i).result ≠ Except.error GeminiError.fallback := by
  intro fuel
  induction fuel with
  | zero => intro i h hf; omega
  | succ fuel ih =>
    intro i h _
    by_cases hlast : i = MAX_RETRIES - 1
    · have hf : fuel = 0 := by simp [MAX_RETRIES] at h hlast; omega
      have hi4 : i = 4 := by simpa [MAX_RETRIES] using hlast
      subst hf; subst hi4
      rcases ho : o 4 with msg | r
      · simp [go, ho, MAX_RETRIES]
      · by_cases ht : isTransientStatus r.status
        · simp [go, ho, MAX_RETRIES, ht]
        · by_cases hok : respOk r.status
          · rcases hta : r.aiText with _ | t
            · simp [go, ho, MAX_RETRIES, ht, hok, hta]
            · by_cases htt : t = ""
              · simp [go, ho, MAX_RETRIES, ht, hok, hta, htt]
              · simp [go, ho, MAX_RETRIES, ht, hok, hta, htt]
          · simp [go, ho, MAX_RETRIES, ht, hok]
    · have hi : i < MAX_RETRIES - 1 := by
        simp [MAX_RETRIES] at h hlast ⊢; omega
      have hsub : i + 1 + fuel = MAX_RETRIES := by
        simp [MAX_RETRIES] at h ⊢; omega
      have hfe : 1 ≤ fuel := by
        simp [MAX_RETRIES] at h hlast hi; omega
      have hrec := ih (i + 1) hsub hfe
      rcases ho : o i with msg | r
      · have hred : go o j (fuel + 1) i = go o j fuel (i + 1) := by
          simp [go, ho, hlast]
        rw [hred]; exact hrec
      · by_cases ht : isTransientStatus r.status
        · have hred : go o j (fuel + 1) i =
              ⟨(go o j fuel (i + 1)).result, (go o j fuel (i + 1)).attempts,
                backoffDelay j i :: (go o j fuel (i + 1)).waits⟩ := by
            simp [go, ho, ht, hi]
          rw [hred]; exact hrec
        · by_cases hok : respOk r.status
          · rcases hta : r.aiText with _ | t
            · have hred : go o j (fuel + 1) i = go o j fuel (i + 1) := by
                simp [go, ho, ht, hok, hta, hlast]
              rw [hred]; exact hrec
            · by_cases htt : t = ""
              · have hred : go o j (fuel + 1) i = go o j fuel (i + 1) := by
                  simp [go, ho, ht, hok, hta, htt, hlast]
                rw [hred]; exact hrec
              · have hred : go o j (fuel + 1) i = ⟨.ok t, i + 1, []⟩ := by
                  simp [go, ho, ht, hok, hta, htt]
                rw [hred]; simp
          · have hred : go o j (fuel + 1) i = go o j fuel (i + 1) := by
              simp [go, ho, ht, hok, hlast]
            rw [hred]; exact hrec

/-- C1: the claim states that a non-success, non-429, non-5xx status (such
as 400) makes `callGeminiAPI` fail immediately with a ClientError, with no
further attempts.  On the code this is false: the client-error throw sits
inside the `try` block, so the loop's own `catch` swallows it and retries
on every attempt but the last.  With a 400 on the first attempt and a
successful response on the second, the run makes 2 attempts and returns
the second attempt's generated text instead of failing. -/
theorem gemini_client_error_is_retried_not_terminal :
    callGeminiAPI o400First zeroJitter =
      ⟨.ok "hello", 2, []⟩ := by decide

/-- C2: the claim states that a 2xx response lacking a non-empty
generated-text field makes `callGeminiAPI` fail with a ContentMissing
error without any retry.  On the code this is false: the content-missing
throw sits inside the `try` block, so the `catch` swallows it and retries
on every attempt but the last.  With a 200-without-text on the first
attempt and a successful response on the second, the run makes 2 attempts
and returns the second attempt's generated text instead of failing. -/
theorem gemini_content_missing_is_retried_not_terminal :
    callGeminiAPI oMissingFirst zeroJitter =
      ⟨.ok "later text", 2, []⟩ := by decide

/-- C3 counterexample: the claim states that every transient attempt
followed by another attempt — including a transport/network failure — is
followed by a backoff wait.  On the code a network failure is retried
straight from the `catch` with no wait: with a transport failure on the
first attempt and a success on the second, the run makes 2 attempts yet
performs zero waits. -/
theorem gemini_network_failure_retries_without_wait :
    (callGeminiAPI oNetFirst zeroJitter).attempts = 2 ∧
    (callGeminiAPI oNetFirst zeroJitter).waits = [] := by
  constructor <;> decide

/-- C3 amended: backoff waits of a run of `callGeminiAPI` are exactly the
delays `2 ^ i * 1000 + jitter` for those attempts `i` that observed an
HTTP 429 or 5xx response and were followed by another attempt, in order,
and each such wait lies in `[2 ^ i * 1000, 2 ^ i * 1000 + 500)` when every
`Math.random()` draw lies in `[0, 1)`.  Transport failures, terminal
outcomes and successes never trigger a wait. -/
theorem gemini_backoff_waits_characterization (o : Nat → AttemptOutcome) (j : Nat → ℚ)
    (hj : ∀ i, 0 ≤ j i ∧ j i < 1) :
    (callGeminiAPI o j).waits =
      ((List.range ((callGeminiAPI o j).attempts - 1)).filter
          (fun k => (o k).isTransient)).map (backoffDelay j) ∧
    ∀ w ∈ (callGeminiAPI o j).waits, ∃ k, k < (callGeminiAPI o j).attempts - 1 ∧
      (o k).isTransient = true ∧
      (2 : ℚ) ^ k * 1000 ≤ w ∧ w < (2 : ℚ) ^ k * 1000 + 500 := by
  have hchar := go_waits o j MAX_RETRIES 0 rfl
  have hmain : (callGeminiAPI o j).waits =
      ((List.range ((callGeminiAPI o j).attempts - 1)).filter
          (fun k => (o k).isTransient)).map (backoffDelay j) := by
    simpa [callGeminiAPI, List.range_eq_range'] using hchar
  refine ⟨hmain, ?_⟩
  intro w hw
  rw [hmain] at hw
  simp only [List.mem_map, List.mem_filter, List.mem_range] at hw
  obtain ⟨k, ⟨hk, htk⟩, hwk⟩ := hw
  refine ⟨k, hk, htk, ?_, ?_⟩
  · rw [← hwk]
    unfold backoffDelay
    have h0 : (0 : ℚ) ≤ j k * 500 :=
      mul_nonneg (hj k).1 (by norm_num)
    linarith
  · rw [← hwk]
    unfold backoffDelay
    have h1 : j k * 500 < 1 * 500 :=
      mul_lt_mul_of_pos_right (hj k).2 (by norm_num)
    linarith

theorem gemini_backoff_waits_characterization_witness :
    (∀ i, 0 ≤ zeroJitter i ∧ zeroJitter i < 1) ∧
    ((callGeminiAPI oAll429 zeroJitter).waits =
      ((List.range ((callGeminiAPI oAll429 zeroJitter).attempts - 1)).filter
          (fun k => (oAll429 k).isTransient)).map (backoffDelay zeroJitter) ∧
    ∀ w ∈ (callGeminiAPI oAll429 zeroJitter).waits,
      ∃ k, k < (callGeminiAPI oAll429 zeroJitter).attempts - 1 ∧
        (oAll429 k).isTransient = true ∧
        (2 : ℚ) ^ k * 1000 ≤ w ∧ w < (2 : ℚ) ^ k * 1000 + 500) :=
  ⟨fun i => ⟨le_refl 0, by norm_num [zeroJitter]⟩,
    gemini_backoff_waits_characterization oAll429 zeroJitter
      (fun i => ⟨le_refl 0, by norm_num [zeroJitter]⟩)⟩

/-- C4 counterexample: the claim takes "transient" to include
transport/network failures (as the spec's classification does).  With
HTTP 429 on the first four attempts and a transport failure on the fifth
— every attempt transient in that broad sense — the run does make
exactly 5 attempts, but it fails with the re-thrown raw network error,
not with a RetriesExhausted error carrying a last observed status and
body: the retries-exhausted throw sits in the 429/5xx branch, which a
final transport failure never reaches. -/
theorem gemini_mixed_transient_ends_with_network_error :
    (callGeminiAPI o429ThenNet zeroJitter).attempts = 5 ∧
    (callGeminiAPI o429ThenNet zeroJitter).result =
      .error (.network "fetch failed: ECONNRESET") := by
  constructor <;> decide

/-- C4 amended: when every attempt observes an HTTP 429 or 5xx response,
`callGeminiAPI` makes exactly `MAX_RETRIES = 5` attempts — never a sixth —
and fails with a RetriesExhausted error carrying the status and body of
the last observed response. -/
theorem gemini_retries_exhausted_after_five_attempts (o : Nat → AttemptOutcome) (j : Nat → ℚ)
    (h : ∀ i, i < MAX_RETRIES → (o i).isTransient = true) :
    (callGeminiAPI o j).attempts = MAX_RETRIES ∧
    ∃ r : HttpResponse, o (MAX_RETRIES - 1) = .response r ∧
      (callGeminiAPI o j).result =
        .error (.retriesExhausted r.status r.body) := by
  have hx : ∀ i, i < MAX_RETRIES →
      ∃ r, o i = .response r ∧ isTransientStatus r.status = true := by
    intro i hi
    rcases ho : o i with m | r
    · exfalso
      have := h i hi
      rw [ho] at this
      simp [AttemptOutcome.isTransient] at this
    · refine ⟨r, rfl, ?_⟩
      have := h i hi
      rw [ho] at this
      simpa [AttemptOutcome.isTransient] using this
  obtain ⟨r0, ho0, ht0⟩ := hx 0 (by simp [MAX_RETRIES])
  obtain ⟨r1, ho1, ht1⟩ := hx 1 (by simp [MAX_RETRIES])
  obtain ⟨r2, ho2, ht2⟩ := hx 2 (by simp [MAX_RETRIES])
  obtain ⟨r3, ho3, ht3⟩ := hx 3 (by simp [MAX_RETRIES])
  obtain ⟨r4, ho4, ht4⟩ := hx 4 (by simp [MAX_RETRIES])
  have e4 : go o j 1 4 = ⟨.error (.retriesExhausted r4.status r4.body), 5, []⟩ := by
    simp [go, ho4, ht4, MAX_RETRIES]
  have e3 : go o j 2 3 = ⟨(go o j 1 4).result, (go o j 1 4).attempts,
      backoffDelay j 3 :: (go o j 1 4).waits⟩ := by
    simp [go, ho3, ht3, MAX_RETRIES]
  have e2 : go o j 3 2 = ⟨(go o j 2 3).result, (go o j 2 3).attempts,
      backoffDelay j 2 :: (go o j 2 3).waits⟩ := by
    simp [go, ho2, ht2, MAX_RETRIES]
  have e1 : go o j 4 1 = ⟨(go o j 3 2).result, (go o j 3 2).attempts,
      backoffDelay j 1 :: (go o j 3 2).waits⟩ := by
    simp [go, ho1, ht1, MAX_RETRIES]
  have e0 : go o j 5 0 = ⟨(go o j 4 1).result, (go o j 4 1).attempts,
      backoffDelay j 0 :: (go o j 4 1).waits⟩ := by
    simp [go, ho0, ht0, MAX_RETRIES]
  refine ⟨?_, r4, by simpa [MAX_RETRIES] using ho4, ?_⟩ <;>
    simp [callGeminiAPI, MAX_RETRIES, e0, e1, e2, e3, e4]

theorem gemini_retries_exhausted_witness :
    (∀ i, i < MAX_RETRIES → (oAll429 i).isTransient = true) ∧
    ((callGeminiAPI oAll429 zeroJitter).attempts = MAX_RETRIES ∧
      ∃ r : HttpResponse, oAll429 (MAX_RETRIES - 1) = .response r ∧
        (callGeminiAPI oAll429 zeroJitter).result =
          .error (.retriesExhausted r.status r.body)) :=
  ⟨by decide, gemini_retries_exhausted_after_five_attempts oAll429 zeroJitter (by decide)⟩

/-- C5: when validation passes, the completion succeeds and both store
writes succeed, `sendPromt` responds 200 with the generated text as the
reply, and the store gains exactly two Messages — a user-role Message with
the submitted content followed by an assistant-role Message with the
generated text, both tagged with the same user identifier — so the reply
equals the assistant Message's content. -/
theorem sendPromt_success_two_messages (s userId text : String)
    (store : List Message) (htr : jsTrim s ≠ "") :
    sendPromt (.str s) userId none none (.ok text) store =
      ⟨.response 200 (.reply text),
        store ++ [⟨userId, "user", s⟩, ⟨userId, "assistant", text⟩], true⟩ := by
  have hne : s ≠ "" := fun e => htr (by rw [e]; rfl)
  simp [sendPromt, JSValue.truthy, hne, htr]

theorem sendPromt_success_two_messages_witness :
    jsTrim "hi" ≠ "" ∧
    sendPromt (.str "hi") "u1" none none (.ok "hello there") [] =
      ⟨.response 200 (.reply "hello there"),
        [⟨"u1", "user", "hi"⟩, ⟨"u1", "assistant", "hello there"⟩], true⟩ :=
  ⟨by decide, sendPromt_success_two_messages "hi" "u1" "hello there" [] (by decide)⟩

/-- C6: when `content` is missing (undefined) or blank after trimming,
`sendPromt` responds 400 with an `errors` field, leaves the store
untouched, and never invokes the completion client. -/
theorem sendPromt_blank_content_rejected (content : JSValue) (userId : String)
    (createUser createAssistant : Option String) (gemini : Except GeminiError String)
    (store : List Message)
    (h : content = .undef ∨ ∃ s, content = .str s ∧ jsTrim s = "") :
    sendPromt content userId createUser createAssistant gemini store =
      ⟨.response 400 (.errors "Promt content is required"), store, false⟩ := by
  rcases h with h | ⟨s, rfl, hts⟩
  · subst h; simp [sendPromt, JSValue.truthy]
  · by_cases hse : s = ""
    · subst hse; simp [sendPromt, JSValue.truthy]
    · simp [sendPromt, JSValue.truthy, hse, hts]

theorem sendPromt_blank_content_rejected_witness :
    ((JSValue.undef = JSValue.undef ∨
        ∃ s, JSValue.undef = JSValue.str s ∧ jsTrim s = "") ∧
      sendPromt JSValue.undef "u1" none none (.ok "x") [] =
        ⟨.response 400 (.errors "Promt content is required"), [], false⟩) :=
  ⟨Or.inl rfl,
    sendPromt_blank_content_rejected JSValue.undef "u1" none none (.ok "x") [] (Or.inl rfl)⟩

/-- C7: every post-validation failure of `sendPromt` — a user-turn
persistence failure, a completion failure, or an assistant-turn
persistence failure — yields a 500 response whose message is the
underlying failure message exactly when that message carries the
completion client's "Gemini API" marker (the handler's identifiability
test), and the generic server-error message otherwise. -/
theorem sendPromt_error_mapping (s userId : String)
    (createUser createAssistant : Option String) (gemini : Except GeminiError String)
    (store : List Message) (m : String) (htr : jsTrim s ≠ "")
    (h : createUser = some m
       ∨ (createUser = none ∧ ∃ e, gemini = .error e ∧ m = e.message)
       ∨ (createUser = none ∧ (∃ t, gemini = .ok t) ∧ createAssistant = some m)) :
    (sendPromt (.str s) userId createUser createAssistant gemini store).result =
      .response 500 (.error (if includesGeminiAPI m then m else genericErrorMessage)) := by
  have hne : s ≠ "" := fun e => htr (by rw [e]; rfl)
  rcases h with rfl | ⟨rfl, e, rfl, rfl⟩ | ⟨rfl, ⟨t, rfl⟩, rfl⟩
  · simp [sendPromt, JSValue.truthy, hne, htr, catchResponse]
  · simp [sendPromt, JSValue.truthy, hne, htr, catchResponse]
  · simp [sendPromt, JSValue.truthy, hne, htr, catchResponse]

theorem sendPromt_error_mapping_witness :
    jsTrim "hi" ≠ "" ∧
    (sendPromt (.str "hi") "u1" (some "db down") none (.ok "x") []).result =
      .response 500 (.error (if includesGeminiAPI "db down" then "db down"
        else genericErrorMessage)) :=
  ⟨by decide,
    sendPromt_error_mapping "hi" "u1" (some "db down") none (.ok "x") [] "db down"
      (by decide) (Or.inl rfl)⟩

/-- C8: when the user-turn persistence and the completion succeed and the
assistant-turn persistence fails, `sendPromt` responds with a server
error while the store keeps exactly the already-persisted user Message —
no rollback or compensation occurs. -/
theorem sendPromt_assistant_persist_failure_keeps_user_turn (s userId t m : String)
    (store : List Message) (htr : jsTrim s ≠ "") :
    sendPromt (.str s) userId none (some m) (.ok t) store =
      ⟨.response 500 (.error (if includesGeminiAPI m then m else genericErrorMessage)),
        store ++ [⟨userId, "user", s⟩], true⟩ := by
  have hne : s ≠ "" := fun e => htr (by rw [e]; rfl)
  simp [sendPromt, JSValue.truthy, hne, htr, catchResponse]

theorem sendPromt_assistant_persist_failure_witness :
    jsTrim "hi" ≠ "" ∧
    sendPromt (.str "hi") "u1" none (some "write failed") (.ok "reply text") [] =
      ⟨.response 500 (.error (if includesGeminiAPI "write failed" then "write failed"
          else genericErrorMessage)),
        [⟨"u1", "user", "hi"⟩], true⟩ :=
  ⟨by decide,
    sendPromt_assistant_persist_failure_keeps_user_turn "hi" "u1" "reply text"
      "write failed" [] (by decide)⟩

/-- C9: for every sequence of attempt outcomes and jitter draws,
`callGeminiAPI` settles inside its loop — the fallback "Failed to get
response from Gemini API." throw after the loop is unreachable. -/
theorem gemini_fallback_throw_unreachable (o : Nat → AttemptOutcome) (j : Nat → ℚ) :
    (callGeminiAPI o j).result ≠ Except.error GeminiError.fallback :=
  go_result_ne_fallback o j MAX_RETRIES 0 rfl (by simp [MAX_RETRIES])

theorem gemini_fallback_throw_unreachable_witness :
    (callGeminiAPI oAll429 zeroJitter).result ≠ Except.error GeminiError.fallback :=
  gemini_fallback_throw_unreachable oAll429 zeroJitter

/-- C10: when `content` is truthy but not a string (for example a
number), `sendPromt` throws an uncaught TypeError from `content.trim()`
before sending any HTTP response, and neither persists a Message nor
calls the completion client. -/
theorem sendPromt_truthy_nonstring_throws (content : JSValue) (userId : String)
    (createUser createAssistant : Option String) (gemini : Except GeminiError String)
    (store : List Message)
    (h1 : content.truthy = true) (h2 : content.isString = false) :
    sendPromt content userId createUser createAssistant gemini store =
      ⟨.uncaughtTypeError, store, false⟩ := by
  rcases hc : content with _ | s | n | b
  · rw [hc] at h1; simp [JSValue.truthy] at h1
  · rw [hc] at h2; simp [JSValue.isString] at h2
  · subst hc; simp [sendPromt, h1]
  · subst hc; simp [sendPromt, h1]

theorem sendPromt_truthy_nonstring_throws_witness :
    (JSValue.num 7).truthy = true ∧ (JSValue.num 7).isString = false ∧
    sendPromt (.num 7) "u1" none none (.ok "x") [] =
      ⟨.uncaughtTypeError, [], false⟩ :=
  ⟨by decide, by decide,
    sendPromt_truthy_nonstring_throws (.num 7) "u1" none none (.ok "x") []
      (by decide) (by decide)⟩

end NeuroSearch
